import Mathlib

/-!
# Shallow embedding of the yacht deduplication / scoring core

Source: `src/deduplication.py` (classes `YachtDeduplicator` and `YachtScorer`)
over the `YachtListing` entity of `src/models.py`.

Modelling conventions:
* Python `float` values (price, length, similarity scores, attractiveness
  scores) are embedded as `ℚ`; every arithmetic step the code performs is
  mirrored exactly on `ℚ`.
* Python `Optional` columns are `Option` values; Python truthiness of a
  field (`if listing.year:` etc.) is embedded explicitly: `None`, the empty
  string, the number `0` are falsy.
* Character classes of the `re` module (`\w`, `\s`) and `str.lower` are
  modelled at the ASCII level (Lean's `Char.isAlpha` etc.); all concrete
  inputs used below are ASCII, where the model is exact.
-/

namespace Yacht

/-- Python truthiness of an optional string: `None` and `""` are falsy. -/
def truthyS : Option String → Bool
  | none => false
  | some s => !(s == "")

/-- Python truthiness of an optional rational (`float` column): `None` and `0.0` are falsy. -/
def truthyQ : Option ℚ → Bool
  | none => false
  | some q => !(q == 0)

/-- Python truthiness of an optional integer: `None` and `0` are falsy. -/
def truthyI : Option Int → Bool
  | none => false
  | some n => !(n == 0)

/-- Python `needle in hay` on strings: contiguous-substring containment. -/
def strContains (hay needle : String) : Bool :=
  decide (needle.toList <:+: hay.toList)

/-- ASCII-level model of Python `str.lower`. -/
def pyLower (s : String) : String :=
  String.mk (s.toList.map Char.toLower)

/-- The `YachtListing` entity (`src/models.py`), restricted to the columns the
deduplication and scoring engines read or write.  Columns neither engine
touches (`currency`, `seller_name`, `source_url`, `source_platform`,
timestamps) are omitted. -/
structure YachtListing where
  id : Nat
  title : Option String
  price : Option ℚ
  year : Option Int
  brand : Option String
  model : Option String
  length : Option ℚ
  location : Option String
  condition : Option String
  description : Option String
  seller_type : Option String
  images : Option String
  hin : Option String
  mmsi : Option String
  is_duplicate : Bool
  score : ℚ
deriving DecidableEq, Repr

/-- A listing with every optional field absent, used to build concrete inputs. -/
def blankListing (i : Nat) : YachtListing :=
  ⟨i, none, none, none, none, none, none, none, none, none, none, none, none, none,
   false, 0⟩

/-! ## Attractiveness scorer (`YachtScorer`, src/deduplication.py lines 173-307)

`YachtScorer.__init__` captures `datetime.now().year`; it is the explicit
parameter `cy` (current year) of the embedded functions. `round(x, 2)` is
embedded as round-half-to-even at two decimal places over `ℚ`. -/

/-- Round-half-to-even of a rational to an integer (the tie rule of Python's
`round`). -/
def roundHalfEven (q : ℚ) : ℤ :=
  if q - ⌊q⌋ < 1/2 then ⌊q⌋
  else if 1/2 < q - ⌊q⌋ then ⌊q⌋ + 1
  else if ⌊q⌋ % 2 = 0 then ⌊q⌋ else ⌊q⌋ + 1

/-- Python `round(x, 2)`: round to two decimal places. -/
def round2 (q : ℚ) : ℚ :=
  (roundHalfEven (100 * q) : ℚ) / 100

/-- Age contribution of `calculate_score` (guarded by `if listing.year:`). -/
def ageScore (cy : ℤ) (year : Option ℤ) : ℚ :=
  match year with
  | none => 0
  | some y =>
    if y = 0 then 0
    else
      let age := cy - y
      if age ≤ 5 then 2
      else if age ≤ 10 then 3/2
      else if age ≤ 15 then 1
      else if age ≤ 20 then 1/2
      else 0

/-- Price-per-meter contribution (guarded by `if listing.price and listing.length:`). -/
def priceScore (price length : Option ℚ) : ℚ :=
  match price, length with
  | some p, some l =>
    if p = 0 ∨ l = 0 then 0
    else
      let ppm := p / l
      if 10000 ≤ ppm ∧ ppm ≤ 50000 then 2
      else if 5000 ≤ ppm ∧ ppm ≤ 80000 then 1
      else if ppm < 5000 then 1/2
      else 0
  | _, _ => 0

/-- Length contribution (guarded by `if listing.length:`). -/
def lengthScore (length : Option ℚ) : ℚ :=
  match length with
  | none => 0
  | some l =>
    if l = 0 then 0
    else if 10 ≤ l ∧ l ≤ 15 then 3/2
    else if 8 ≤ l ∧ l ≤ 20 then 1
    else if 20 < l then 1/2
    else 0

/-- The hard-coded premium brand list of `calculate_score`. -/
def premium_brands : List String :=
  ["bavaria", "jeanneau", "beneteau", "hanse", "dehler",
   "x-yachts", "hallberg-rassy", "najad", "swan", "oyster"]

/-- Brand contribution (guarded by `if listing.brand:`; `any(premium in brand_lower ...)`). -/
def brandScore (brand : Option String) : ℚ :=
  match brand with
  | none => 0
  | some b =>
    if b = "" then 0
    else if premium_brands.any (fun p => strContains (pyLower b) p) then 1
    else 0

/-- Seller-type contribution (`if listing.seller_type == 'dealer'`). -/
def sellerScore (seller_type : Option String) : ℚ :=
  if seller_type = some "dealer" then 1/2 else 0

/-- The hard-coded major-location list of `calculate_score`. -/
def major_locations : List String :=
  ["hamburg", "kiel", "bremen", "rostock", "flensburg",
   "lübeck", "stralsund", "greifswald"]

/-- Location contribution (guarded by `if listing.location:`). -/
def locationScore (location : Option String) : ℚ :=
  match location with
  | none => 0
  | some loc =>
    if loc = "" then 0
    else if major_locations.any (fun p => strContains (pyLower loc) p) then 1/2
    else 0

/-- Description-quality contribution (guarded by `if listing.description:`). -/
def descriptionScore (description : Option String) : ℚ :=
  match description with
  | none => 0
  | some d =>
    if d = "" then 0
    else if 500 < d.length then 1
    else if 200 < d.length then 1/2
    else 0

/-- Modelled from the spec: the `json.loads` image-list parsing of
`calculate_score` (Python stdlib, not part of src/). Per §4.4 the image
count is "parsed from serialized image list; malformed/unparseable input is
treated as zero images, not an error": a well-formed serialized list is
bracketed and its element count is one more than its top-level comma count;
anything else parses to `none` (the swallowed exception). -/
def parseImageCount (s : String) : Option Nat :=
  let cs := s.toList
  if cs.head? = some '[' ∧ cs.getLast? = some ']' then
    let inner := (cs.drop 1).dropLast
    if inner.all (fun c => c = ' ') then some 0
    else some ((inner.filter (fun c => c = ',')).length + 1)
  else none

/-- Image-count contribution (guarded by `if listing.images:`, with the
`try/except` around `json.loads` degrading to zero contribution). -/
def imagesScore (images : Option String) : ℚ :=
  match images with
  | none => 0
  | some s =>
    if s = "" then 0
    else
      match parseImageCount s with
      | none => 0
      | some n =>
        if 5 ≤ n then 1
        else if 2 ≤ n then 1/2
        else 0

/-- Condition-keyword contribution (guarded by `if listing.condition:`). -/
def conditionScore (condition : Option String) : ℚ :=
  match condition with
  | none => 0
  | some c =>
    if c = "" then 0
    else
      let cl := pyLower c
      if strContains cl "new" then 3/2
      else if strContains cl "excellent" ∨ strContains cl "very good" then 1
      else if strContains cl "good" then 1/2
      else 0

/-- The raw additive score of `calculate_score` before normalization:
base `1.0` plus the rule-table contributions. -/
def rawScore (cy : ℤ) (l : YachtListing) : ℚ :=
  1 + ageScore cy l.year + priceScore l.price l.length + lengthScore l.length
    + brandScore l.brand + sellerScore l.seller_type + locationScore l.location
    + descriptionScore l.description + imagesScore l.images
    + conditionScore l.condition

/-- `YachtScorer.calculate_score`: normalize the raw score to `[0, 10]`
(`min(10.0, score / 12.0 * 10.0)`, rounded to two decimals). -/
def calculate_score (cy : ℤ) (l : YachtListing) : ℚ :=
  round2 (min 10 (rawScore cy l / 12 * 10))

/-! ## Text normalizer (`YachtDeduplicator.normalize_text`, lines 158-171)

The regex character classes are modelled at ASCII level: `\w` is
letter/digit/underscore, `\s` is Python's whitespace class. After the first
substitution every character is a word character or whitespace, so the
word-boundary stopword pattern removes exactly the maximal word-character
runs that equal a stopword. -/

/-- Regex `\w` (ASCII level): letter, digit or underscore. -/
def isWordChar (c : Char) : Bool :=
  c.isAlpha || c.isDigit || c = '_'

/-- Regex `\s` (ASCII level): Python's whitespace characters. -/
def isPySpace (c : Char) : Bool :=
  c = ' ' || c = '\t' || c = '\n' || c = '\x0d' || c = '\x0b' || c = '\x0c'

/-- `re.sub(r'[^\w\s]', ' ', text)`: replace every character that is neither
a word character nor whitespace by a single space. -/
def subNonWord (cs : List Char) : List Char :=
  cs.map (fun c => if isWordChar c || isPySpace c then c else ' ')

/-- The stopword alternation of `normalize_text`, as character lists. -/
def stopwords : List (List Char) :=
  ["the", "a", "an", "and", "or", "but", "in", "on", "at", "to", "for",
   "of", "with", "by"].map String.toList

/-- Emit one completed word-character run: a stopword run becomes a single
space, any other non-empty run is kept verbatim. -/
def flushRun (run : List Char) : List Char :=
  if run = [] then [] else if run ∈ stopwords then [' '] else run

/-- Worker for `removeStopwords`: `run` is the (reversed-not) word run read
so far. -/
def removeStopwordsAux (run : List Char) : List Char → List Char
  | [] => flushRun run
  | c :: rest =>
    if isWordChar c then removeStopwordsAux (run ++ [c]) rest
    else flushRun run ++ c :: removeStopwordsAux [] rest

/-- `re.sub(r'\b(the|a|an|...)\b', ' ', text)` on a string whose characters
are all word characters or whitespace: each maximal word-character run that
equals a stopword becomes a single space. -/
def removeStopwords (cs : List Char) : List Char :=
  removeStopwordsAux [] cs

/-- Worker for `collapseSpaces`: `inSpace` records whether the previous
character was whitespace (already emitted as one space). -/
def collapseSpacesAux (inSpace : Bool) : List Char → List Char
  | [] => []
  | c :: rest =>
    if isPySpace c then
      (if inSpace then [] else [' ']) ++ collapseSpacesAux true rest
    else c :: collapseSpacesAux false rest

/-- `re.sub(r'\s+', ' ', text)`: collapse each whitespace run to one space. -/
def collapseSpaces (cs : List Char) : List Char :=
  collapseSpacesAux false cs

/-- Python `str.strip()`: drop leading and trailing whitespace. -/
def pyStrip (cs : List Char) : List Char :=
  ((cs.dropWhile isPySpace).reverse.dropWhile isPySpace).reverse

/-- `YachtDeduplicator.normalize_text`: lowercase, strip punctuation,
remove stopwords, collapse whitespace, trim. -/
def normalize_text (s : String) : String :=
  if s = "" then ""
  else
    String.mk
      (pyStrip (collapseSpaces (removeStopwords
        (subNonWord (s.toList.map Char.toLower)))))

/-! ## `difflib.SequenceMatcher` (`text_similarity`, line 154-156)

`text_similarity` calls `SequenceMatcher(None, text1, text2).ratio()`. The
matcher is embedded exactly as CPython's `difflib` computes it for
`isjunk=None`: the `b2j` index with the autojunk purge of popular elements
(strings of length ≥ 200), the `find_longest_match` dynamic programming
loop with its tie-breaking, the two non-junk extension loops (the junk
extension loops never fire because the junk set is empty for
`isjunk=None`), and the recursive block decomposition whose matched sizes
`ratio` sums. Recursions carry an explicit fuel argument large enough that
it never runs out on any execution the Python code performs. -/

/-- Indexing with a default, for `a[i]` under guards that keep `i` in range. -/
def getC (l : List Char) (i : Nat) : Char :=
  l.getD i ' '

/-- Number of occurrences of `c` in `b`. -/
def countC (b : List Char) (c : Char) : Nat :=
  (b.filter (fun x => x = c)).length

/-- The `b2j` map of `SequenceMatcher.__chain_b`: all positions of `c` in
`b`, except that for `len(b) >= 200` "popular" elements (more than
`len(b)//100 + 1` occurrences) are purged (autojunk). -/
def b2j (b : List Char) (c : Char) : List Nat :=
  if 200 ≤ b.length ∧ b.length / 100 + 1 < countC b c then []
  else (List.range b.length).filter (fun j => getC b j = c)

/-- One step of the inner loop of `find_longest_match`: `j2lenOld` is the
previous row, the accumulator carries the row being built and the best
`(i, j, size)` so far. -/
def flmInner (i : Nat) (j2lenOld : Nat → Nat)
    (acc : (Nat → Nat) × (Nat × Nat × Nat)) (j : Nat) :
    (Nat → Nat) × (Nat × Nat × Nat) :=
  let row := acc.1
  let bi := acc.2.1
  let bj := acc.2.2.1
  let bs := acc.2.2.2
  let k := (if j = 0 then 0 else j2lenOld (j - 1)) + 1
  let row' := fun x => if x = j then k else row x
  if bs < k then (row', (i + 1 - k, j + 1 - k, k)) else (row', (bi, bj, bs))

/-- One step of the outer loop of `find_longest_match` (one value of `i`):
scan the positions of `a[i]` in `b` inside the window `[blo, bhi)`. -/
def flmOuter (a b : List Char) (blo bhi : Nat)
    (acc : (Nat → Nat) × (Nat × Nat × Nat)) (i : Nat) :
    (Nat → Nat) × (Nat × Nat × Nat) :=
  let js := (b2j b (getC a i)).filter (fun j => decide (blo ≤ j ∧ j < bhi))
  js.foldl (flmInner i acc.1) (fun _ => 0, acc.2)

/-- The dynamic-programming core of `find_longest_match`: best junk-free
match `(besti, bestj, bestsize)` in `a[alo:ahi]` × `b[blo:bhi]`. -/
def flmCore (a b : List Char) (alo ahi blo bhi : Nat) : Nat × Nat × Nat :=
  ((List.range' alo (ahi - alo)).foldl (flmOuter a b blo bhi)
    (fun _ => 0, (alo, blo, 0))).2

/-- Front extension loop of `find_longest_match` (`while besti > alo and
bestj > blo and a[besti-1] == b[bestj-1]`; the junk test is vacuous for
`isjunk=None`). A fuel of the initial `besti` is exact. -/
def extFront (a b : List Char) (alo blo : Nat) :
    Nat → Nat × Nat × Nat → Nat × Nat × Nat
  | 0, st => st
  | fuel + 1, (bi, bj, bs) =>
    if alo < bi ∧ blo < bj ∧ getC a (bi - 1) = getC b (bj - 1) then
      extFront a b alo blo fuel (bi - 1, bj - 1, bs + 1)
    else (bi, bj, bs)

/-- Back extension loop of `find_longest_match` (`while besti+bestsize <
ahi and bestj+bestsize < bhi and a[besti+bestsize] == b[bestj+bestsize]`).
A fuel of `ahi` is exact. -/
def extBack (a b : List Char) (ahi bhi : Nat) :
    Nat → Nat × Nat × Nat → Nat × Nat × Nat
  | 0, st => st
  | fuel + 1, (bi, bj, bs) =>
    if bi + bs < ahi ∧ bj + bs < bhi ∧ getC a (bi + bs) = getC b (bj + bs) then
      extBack a b ahi bhi fuel (bi, bj, bs + 1)
    else (bi, bj, bs)

/-- `SequenceMatcher.find_longest_match` on the window
`a[alo:ahi]` × `b[blo:bhi]`, for `isjunk=None`. -/
def find_longest_match (a b : List Char) (alo ahi blo bhi : Nat) :
    Nat × Nat × Nat :=
  let best := flmCore a b alo ahi blo bhi
  let best := extFront a b alo blo best.1 best
  extBack a b ahi bhi ahi best

/-- Total size of the matching blocks of `get_matching_blocks` on a window:
the size of the longest match plus the totals of the two flanking windows
(CPython's explicit queue consumes windows in a different order, which
cannot change the sum). -/
def matchTotalAux (a b : List Char) : Nat → Nat → Nat → Nat → Nat → Nat
  | 0, _, _, _, _ => 0
  | fuel + 1, alo, ahi, blo, bhi =>
    let m := find_longest_match a b alo ahi blo bhi
    let i := m.1
    let j := m.2.1
    let k := m.2.2
    if k = 0 then 0
    else
      k + (if alo < i ∧ blo < j then matchTotalAux a b fuel alo i blo j else 0)
        + (if i + k < ahi ∧ j + k < bhi then
             matchTotalAux a b fuel (i + k) ahi (j + k) bhi
           else 0)

/-- Sum of all matched block sizes of `SequenceMatcher(None, a, b)`. Every
recursion level consumes at least one matched element, so a fuel of
`a.length + b.length + 1` never runs out. -/
def matchTotal (a b : List Char) : Nat :=
  matchTotalAux a b (a.length + b.length + 1) 0 a.length 0 b.length

/-- `SequenceMatcher.ratio()`: `2.0 * matches / (len(a) + len(b))`, and
`1.0` when both strings are empty. -/
def ratioQ (a b : List Char) : ℚ :=
  if a.length + b.length = 0 then 1
  else (2 * matchTotal a b : ℚ) / (a.length + b.length : ℚ)

/-- `YachtDeduplicator.text_similarity`:
`SequenceMatcher(None, text1, text2).ratio()`. -/
def text_similarity (text1 text2 : String) : ℚ :=
  ratioQ text1.toList text2.toList

/-! ## Similarity scorer and duplicate grouper
(`YachtDeduplicator`, src/deduplication.py lines 10-152) -/

/-- Python `x or ''` on an optional string. -/
def orEmpty : Option String → String
  | none => ""
  | some s => s

/-- `Option.getD`, for reading a field under a truthiness guard. -/
def getS (o : Option String) : String :=
  o.getD ""

/-- `f"{listing.brand or ''} {listing.model or ''}".strip()`. -/
def brandModel (brand model : Option String) : String :=
  String.mk (pyStrip ((orEmpty brand).toList ++ ' ' :: (orEmpty model).toList))

/-- Year signal: `1.0 if year_diff == 0 else max(0, 1.0 - year_diff / 5.0)`. -/
def yearSim (y1 y2 : ℤ) : ℚ :=
  let d : ℤ := |y1 - y2|
  if d = 0 then 1 else max 0 (1 - (d : ℚ) / 5)

/-- Length signal: `1.0 if length_diff < 0.5 else max(0, 1.0 - length_diff / 5.0)`. -/
def lengthSim (x1 x2 : ℚ) : ℚ :=
  let d := |x1 - x2|
  if d < 1/2 then 1 else max 0 (1 - d / 5)

/-- Price signal: `max(0, 1.0 - price_diff / max(price1, price2))`. -/
def priceSim (p1 p2 : ℚ) : ℚ :=
  let d := |p1 - p2|
  max 0 (1 - d / max p1 p2)

/-- `Option.getD`, for reading a numeric field under a truthiness guard. -/
def getI (o : Option ℤ) : ℤ :=
  o.getD 0

/-- `Option.getD`, for reading a numeric field under a truthiness guard. -/
def getQ (o : Option ℚ) : ℚ :=
  o.getD 0

/-- The `(score, weight)` pairs `calculate_similarity` accumulates in its
`scores` / `weights` lists, in source order: title 0.4, brand+model 0.3,
year 0.1, length 0.1, price 0.1 — each guarded by Python truthiness of
both operands. -/
def simPairs (l1 l2 : YachtListing) : List (ℚ × ℚ) :=
  (if truthyS l1.title ∧ truthyS l2.title then
    [(text_similarity (normalize_text (getS l1.title))
        (normalize_text (getS l2.title)), (2/5 : ℚ))]
   else []) ++
  (if brandModel l1.brand l1.model ≠ "" ∧ brandModel l2.brand l2.model ≠ "" then
    [(text_similarity (normalize_text (brandModel l1.brand l1.model))
        (normalize_text (brandModel l2.brand l2.model)), (3/10 : ℚ))]
   else []) ++
  (if truthyI l1.year ∧ truthyI l2.year then
    [(yearSim (getI l1.year) (getI l2.year), (1/10 : ℚ))]
   else []) ++
  (if truthyQ l1.length ∧ truthyQ l2.length then
    [(lengthSim (getQ l1.length) (getQ l2.length), (1/10 : ℚ))]
   else []) ++
  (if truthyQ l1.price ∧ truthyQ l2.price then
    [(priceSim (getQ l1.price) (getQ l2.price), (1/10 : ℚ))]
   else [])

/-- `YachtDeduplicator.calculate_similarity`: weighted average of the
available signals; `0.0` when no signal is available. -/
def calculate_similarity (l1 l2 : YachtListing) : ℚ :=
  let ps := simPairs l1 l2
  if ps = [] then 0
  else
    let weighted_sum := (ps.map (fun p => p.1 * p.2)).sum
    let total_weight := (ps.map Prod.snd).sum
    if 0 < total_weight then weighted_sum / total_weight else 0

/-- `YachtDeduplicator.are_duplicates`: HIN short-circuit, MMSI
short-circuit, exact normalized-title match, then composite similarity
against the `0.85` threshold. -/
def are_duplicates (l1 l2 : YachtListing) : Bool :=
  if truthyS l1.hin ∧ truthyS l2.hin ∧ l1.hin = l2.hin then true
  else if truthyS l1.mmsi ∧ truthyS l2.mmsi ∧ l1.mmsi = l2.mmsi then true
  else if truthyS l1.title ∧ truthyS l2.title ∧
      normalize_text (getS l1.title) = normalize_text (getS l2.title) then true
  else decide (17/20 ≤ calculate_similarity l1 l2)

/-- Inner loop of `find_duplicates`: scan the listings after the anchor and
collect those that are pairwise-duplicate with the anchor, skipping (and
recording) already-processed ids. -/
def collectGroup (anchor : YachtListing) :
    List YachtListing → List Nat → List YachtListing × List Nat
  | [], p => ([], p)
  | l2 :: rest, p =>
    if l2.id ∈ p then collectGroup anchor rest p
    else if are_duplicates anchor l2 then
      let r := collectGroup anchor rest (l2.id :: p)
      (l2 :: r.1, r.2)
    else collectGroup anchor rest p

/-- Outer loop of `find_duplicates`: each not-yet-processed listing opens a
group as anchor; groups that stay singletons are discarded. -/
def findDupsAux : List YachtListing → List Nat → List (List YachtListing)
  | [], _ => []
  | l1 :: rest, p =>
    if l1.id ∈ p then findDupsAux rest p
    else
      let r := collectGroup l1 rest (l1.id :: p)
      if r.1 = [] then findDupsAux rest r.2
      else (l1 :: r.1) :: findDupsAux rest r.2

/-- `YachtDeduplicator.find_duplicates`. -/
def find_duplicates (listings : List YachtListing) : List (List YachtListing) :=
  findDupsAux listings []

/-! ## Engine runs over the listing store
(`deduplicate_listings` lines 14-52, `score_all_listings` lines 179-206)

Modelled from the spec: the SQLAlchemy session (`SessionLocal`,
`db.query(...).all()`, `db.commit()`, `db.rollback()`) is not part of src/;
per §6 the store exposes an all-or-nothing transaction — commit applies all
buffered `is_duplicate`/`score` writes, rollback discards them. The store
is a list of listings; `readErr` / `commitErr` inject the "unexpected
failure while reading the collection / while committing" of §7; each engine
returns the outcome together with the store state the caller observes. -/

/-- The result dictionary of `deduplicate_listings`. -/
structure DedupResults where
  processed : Nat
  duplicates_found : Nat
  duplicates_marked : Nat
deriving DecidableEq, Repr

/-- The result dictionary of `score_all_listings`. -/
structure ScoreResults where
  processed : Nat
  scored : Nat
deriving DecidableEq, Repr

/-- `YachtDeduplicator.deduplicate_listings`: read all non-duplicate
listings, find duplicate groups, flag every non-first group member, commit;
on a read or commit failure roll back and re-raise. -/
def deduplicate_listings (store : List YachtListing)
    (readErr commitErr : Option String) :
    Except String DedupResults × List YachtListing :=
  match readErr with
  | some e => (Except.error e, store)
  | none =>
    let listings := store.filter (fun l => !l.is_duplicate)
    let groups := find_duplicates listings
    let dupIds := (groups.map (fun g => (g.drop 1).map YachtListing.id)).flatten
    let marked := store.map (fun l =>
      if l.id ∈ dupIds then { l with is_duplicate := true } else l)
    match commitErr with
    | some e => (Except.error e, store)
    | none =>
      (Except.ok
        { processed := listings.length
          duplicates_found := (groups.map (fun g => g.length - 1)).sum
          duplicates_marked := dupIds.length },
       marked)

/-- `YachtScorer.score_all_listings`: read all non-duplicate listings,
write each one's score, commit; on a read or commit failure roll back and
re-raise. -/
def score_all_listings (cy : ℤ) (store : List YachtListing)
    (readErr commitErr : Option String) :
    Except String ScoreResults × List YachtListing :=
  match readErr with
  | some e => (Except.error e, store)
  | none =>
    let listings := store.filter (fun l => !l.is_duplicate)
    let scored := store.map (fun l =>
      if !l.is_duplicate then { l with score := calculate_score cy l } else l)
    match commitErr with
    | some e => (Except.error e, store)
    | none =>
      (Except.ok { processed := listings.length, scored := listings.length },
       scored)

/-! ## Bounds of the scoring rule table -/

theorem ageScore_bounds (cy : ℤ) (y : Option ℤ) :
    0 ≤ ageScore cy y ∧ ageScore cy y ≤ 2 := by
  unfold ageScore
  cases y with
  | none => norm_num
  | some v => dsimp only; split_ifs <;> norm_num

theorem priceScore_bounds (p l : Option ℚ) :
    0 ≤ priceScore p l ∧ priceScore p l ≤ 2 := by
  unfold priceScore
  cases p <;> cases l <;> dsimp only
  case some.some => split_ifs <;> norm_num
  all_goals norm_num

theorem lengthScore_bounds (l : Option ℚ) :
    0 ≤ lengthScore l ∧ lengthScore l ≤ 3/2 := by
  unfold lengthScore
  cases l with
  | none => norm_num
  | some v => dsimp only; split_ifs <;> norm_num

theorem brandScore_bounds (b : Option String) :
    0 ≤ brandScore b ∧ brandScore b ≤ 1 := by
  unfold brandScore
  cases b with
  | none => norm_num
  | some v => dsimp only; split_ifs <;> norm_num

theorem sellerScore_bounds (s : Option String) :
    0 ≤ sellerScore s ∧ sellerScore s ≤ 1/2 := by
  unfold sellerScore; split_ifs <;> norm_num

theorem locationScore_bounds (loc : Option String) :
    0 ≤ locationScore loc ∧ locationScore loc ≤ 1/2 := by
  unfold locationScore
  cases loc with
  | none => norm_num
  | some v => dsimp only; split_ifs <;> norm_num

theorem descriptionScore_bounds (d : Option String) :
    0 ≤ descriptionScore d ∧ descriptionScore d ≤ 1 := by
  unfold descriptionScore
  cases d with
  | none => norm_num
  | some v => dsimp only; split_ifs <;> norm_num

theorem imagesScore_bounds (im : Option String) :
    0 ≤ imagesScore im ∧ imagesScore im ≤ 1 := by
  unfold imagesScore
  cases im with
  | none => norm_num
  | some v =>
    dsimp only
    split_ifs
    · norm_num
    · cases parseImageCount v with
      | none => norm_num
      | some n => dsimp only; split_ifs <;> norm_num

theorem conditionScore_bounds (c : Option String) :
    0 ≤ conditionScore c ∧ conditionScore c ≤ 3/2 := by
  unfold conditionScore
  cases c with
  | none => norm_num
  | some v => dsimp only; split_ifs <;> norm_num

theorem rawScore_nonneg (cy : ℤ) (l : YachtListing) : 1 ≤ rawScore cy l := by
  unfold rawScore
  have h1 := ageScore_bounds cy l.year
  have h2 := priceScore_bounds l.price l.length
  have h3 := lengthScore_bounds l.length
  have h4 := brandScore_bounds l.brand
  have h5 := sellerScore_bounds l.seller_type
  have h6 := locationScore_bounds l.location
  have h7 := descriptionScore_bounds l.description
  have h8 := imagesScore_bounds l.images
  have h9 := conditionScore_bounds l.condition
  linarith [h1.1, h2.1, h3.1, h4.1, h5.1, h6.1, h7.1, h8.1, h9.1]

theorem rawScore_le_twelve (cy : ℤ) (l : YachtListing) : rawScore cy l ≤ 12 := by
  unfold rawScore
  have h1 := ageScore_bounds cy l.year
  have h2 := priceScore_bounds l.price l.length
  have h3 := lengthScore_bounds l.length
  have h4 := brandScore_bounds l.brand
  have h5 := sellerScore_bounds l.seller_type
  have h6 := locationScore_bounds l.location
  have h7 := descriptionScore_bounds l.description
  have h8 := imagesScore_bounds l.images
  have h9 := conditionScore_bounds l.condition
  linarith [h1.2, h2.2, h3.2, h4.2, h5.2, h6.2, h7.2, h8.2, h9.2]

/-! ## Rounding lemmas -/

theorem floor_le_roundHalfEven (q : ℚ) : ⌊q⌋ ≤ roundHalfEven q := by
  unfold roundHalfEven
  split_ifs <;> omega

theorem roundHalfEven_le_of_le (q : ℚ) (n : ℤ) (h : q ≤ n) :
    roundHalfEven q ≤ n := by
  have hfl : ⌊q⌋ ≤ n := Int.floor_le_floor h |>.trans_eq (Int.floor_intCast n)
  have hq : (⌊q⌋ : ℚ) ≤ q := Int.floor_le q
  unfold roundHalfEven
  split_ifs with h1 h2 h3
  · exact hfl
  · -- `1/2 < q - ⌊q⌋`, so `⌊q⌋ < n` strictly
    have hlt : (⌊q⌋ : ℚ) < (n : ℚ) := by linarith
    have : ⌊q⌋ < n := by exact_mod_cast hlt
    omega
  · exact hfl
  · -- exact tie `q = ⌊q⌋ + 1/2 ≤ n`, so `⌊q⌋ < n`
    have hr : q - ⌊q⌋ = 1/2 := le_antisymm (not_lt.mp h2) (not_lt.mp h1)
    have : (⌊q⌋ : ℚ) + 1/2 ≤ (n : ℚ) := by linarith
    have : (⌊q⌋ : ℚ) < (n : ℚ) := by linarith
    have : ⌊q⌋ < n := by exact_mod_cast this
    omega

theorem roundHalfEven_nonneg (q : ℚ) (h : 0 ≤ q) : 0 ≤ roundHalfEven q := by
  have : (0 : ℤ) ≤ ⌊q⌋ := Int.floor_nonneg.mpr h
  exact this.trans (floor_le_roundHalfEven q)

theorem round2_mem_Icc (q : ℚ) (h0 : 0 ≤ q) (h10 : q ≤ 10) :
    0 ≤ round2 q ∧ round2 q ≤ 10 := by
  unfold round2
  have hlo : 0 ≤ roundHalfEven (100 * q) :=
    roundHalfEven_nonneg _ (by linarith)
  have hhi : roundHalfEven (100 * q) ≤ (1000 : ℤ) :=
    roundHalfEven_le_of_le _ 1000 (by push_cast; linarith)
  constructor
  · positivity
  · rw [div_le_iff₀ (by norm_num : (0:ℚ) < 100)]
    calc (roundHalfEven (100 * q) : ℚ) ≤ 1000 := by exact_mod_cast hhi
    _ = 10 * 100 := by norm_num

/-- C7: For every listing (and every captured current year), `calculate_score`
returns the two-decimal rounding of `min(10.0, raw_score / 12.0 * 10.0)`,
a value that lies in `[0.0, 10.0]` and is an integer multiple of `1/100`. -/
theorem calculate_score_spec (cy : ℤ) (l : YachtListing) :
    calculate_score cy l = round2 (min 10 (rawScore cy l / 12 * 10)) ∧
    0 ≤ calculate_score cy l ∧ calculate_score cy l ≤ 10 ∧
    ∃ n : ℤ, calculate_score cy l = (n : ℚ) / 100 := by
  have h1 := rawScore_nonneg cy l
  have hmin0 : 0 ≤ min 10 (rawScore cy l / 12 * 10) :=
    le_min (by norm_num) (by positivity)
  have hmin10 : min 10 (rawScore cy l / 12 * 10) ≤ 10 := min_le_left _ _
  have hb := round2_mem_Icc _ hmin0 hmin10
  exact ⟨rfl, hb.1, hb.2, roundHalfEven (100 * min 10 (rawScore cy l / 12 * 10)), rfl⟩

/-- C10: the raw score never exceeds the hard-coded normalization constant
`12.0` (the per-rule maxima `1+2+2+1.5+1+0.5+0.5+1+1+1.5` sum to exactly
`12`), so `raw/12*10 ≤ 10` and the `min(10.0, ·)` clamp never strictly
truncates. -/
theorem rawScore_below_normalization_cap (cy : ℤ) (l : YachtListing) :
    rawScore cy l ≤ 12 ∧
    (1 + 2 + 2 + 3/2 + 1 + 1/2 + 1/2 + 1 + 1 + 3/2 : ℚ) = 12 ∧
    rawScore cy l / 12 * 10 ≤ 10 ∧
    min 10 (rawScore cy l / 12 * 10) = rawScore cy l / 12 * 10 := by
  have h := rawScore_le_twelve cy l
  have h10 : rawScore cy l / 12 * 10 ≤ 10 := by
    rw [div_mul_eq_mul_div, div_le_iff₀ (by norm_num : (0:ℚ) < 12)]
    linarith
  exact ⟨h, by norm_num, h10, min_eq_right h10⟩

/-! ## Determinism of the scorer (claim C9) -/

/-- A listing whose only populated field is `year = 2020`. -/
def yearOnlyListing : YachtListing :=
  { blankListing 0 with year := some 2020 }

/-- C9 counterexample: `calculate_score` is not a function of the listing
fields alone — it also reads the scorer's captured current year
(`self.current_year = datetime.now().year`). The same listing (built in
2020) scores `2.5` for a scorer constructed in 2020 and `0.83` for one
constructed in 2050. -/
theorem calculate_score_depends_on_current_year :
    calculate_score 2020 yearOnlyListing ≠ calculate_score 2050 yearOnlyListing := by
  have h1 : rawScore 2020 yearOnlyListing = 3 := by
    norm_num [rawScore, yearOnlyListing, blankListing, ageScore, priceScore,
      lengthScore, brandScore, sellerScore, locationScore, descriptionScore,
      imagesScore, conditionScore]
    decide
  have h2 : rawScore 2050 yearOnlyListing = 1 := by
    norm_num [rawScore, yearOnlyListing, blankListing, ageScore, priceScore,
      lengthScore, brandScore, sellerScore, locationScore, descriptionScore,
      imagesScore, conditionScore]
    decide
  have e1 : calculate_score 2020 yearOnlyListing = 5/2 := by
    rw [calculate_score, h1]
    norm_num [round2, roundHalfEven]
  have e2 : calculate_score 2050 yearOnlyListing = 83/100 := by
    rw [calculate_score, h2]
    norm_num [round2, roundHalfEven]
  rw [e1, e2]; norm_num

/-- C9 (amended): for a fixed captured current year, `calculate_score` is a
deterministic pure function of the fields it reads (`year`, `price`,
`length`, `brand`, `seller_type`, `location`, `description`, `images`,
`condition`): two listings agreeing on those fields receive the same score,
whatever their `id`, `title`, `hin`, `mmsi` or flags. -/
theorem calculate_score_deterministic (cy : ℤ) (l1 l2 : YachtListing)
    (hy : l1.year = l2.year) (hp : l1.price = l2.price)
    (hl : l1.length = l2.length) (hb : l1.brand = l2.brand)
    (hs : l1.seller_type = l2.seller_type) (hloc : l1.location = l2.location)
    (hd : l1.description = l2.description) (hi : l1.images = l2.images)
    (hc : l1.condition = l2.condition) :
    calculate_score cy l1 = calculate_score cy l2 := by
  simp only [calculate_score, rawScore, hy, hp, hl, hb, hs, hloc, hd, hi, hc]

/-- Concrete instantiation of `calculate_score_deterministic`: two listings
that differ in `id`, `title` and `hin` but agree on all scored fields get
equal scores. -/
def detListingA : YachtListing :=
  { blankListing 1 with
      title := some "Boat one"
      hin := some "AAA"
      year := some 2019 }

def detListingB : YachtListing :=
  { blankListing 2 with
      title := some "Completely different"
      hin := some "BBB"
      year := some 2019 }

theorem calculate_score_deterministic_witness :
    calculate_score 2025 detListingA = calculate_score 2025 detListingB :=
  calculate_score_deterministic 2025 _ _ rfl rfl rfl rfl rfl rfl rfl rfl rfl

/-! ## HIN short-circuit (claim C2) -/

/-- C2: two listings with the same non-empty `hin` are always duplicates,
whatever every other field holds — the first branch of `are_duplicates`
returns `True` before any other field is consulted. -/
theorem are_duplicates_of_equal_hin (l1 l2 : YachtListing) (h : String)
    (h1 : l1.hin = some h) (h2 : l2.hin = some h) (hne : h ≠ "") :
    are_duplicates l1 l2 = true := by
  simp [are_duplicates, h1, h2, truthyS, hne]

/-- The §8 end-to-end example: `hin = "GER123"`, plausible fields. -/
def hinListingA : YachtListing :=
  { blankListing 1 with
      hin := some "GER123"
      title := some "Bavaria 46"
      year := some 2018
      length := some (1427/100)
      price := some 185000 }

/-- The §8 end-to-end example: same `hin`, wildly different other fields. -/
def hinListingB : YachtListing :=
  { blankListing 2 with
      hin := some "GER123"
      title := some "Completely Different Name"
      year := some 2005
      length := some 8
      price := some 50000 }

/-- Concrete instantiation of `are_duplicates_of_equal_hin` on the spec's
own §8 example pair. -/
theorem are_duplicates_of_equal_hin_witness :
    are_duplicates hinListingA hinListingB = true :=
  are_duplicates_of_equal_hin hinListingA hinListingB "GER123" rfl rfl
    (by decide)

/-! ## Characters surviving `normalize_text` (claim C5) -/

/-- C5 counterexample: `normalize_text` keeps the underscore — regex `\w`
covers `[A-Za-z0-9_]`, so `_` is not replaced by a space even though it is
neither a letter, a digit, nor whitespace. -/
theorem normalize_text_keeps_underscore :
    normalize_text "_" = "_" ∧
    ('_').isAlpha = false ∧ ('_').isDigit = false ∧
    isPySpace '_' = false ∧ ('_').isWhitespace = false := by
  decide

theorem mem_subNonWord {c : Char} {cs : List Char} (h : c ∈ subNonWord cs) :
    (isWordChar c || isPySpace c) = true := by
  unfold subNonWord at h
  obtain ⟨d, _, rfl⟩ := List.mem_map.mp h
  split_ifs with hd
  · exact hd
  · decide

theorem mem_flushRun {c : Char} {run : List Char} (h : c ∈ flushRun run) :
    c ∈ run ∨ c = ' ' := by
  unfold flushRun at h
  split_ifs at h
  · simp at h
  · simp at h; exact Or.inr h
  · exact Or.inl h

theorem mem_removeStopwordsAux {c : Char} :
    ∀ (cs run : List Char), c ∈ removeStopwordsAux run cs →
      c ∈ run ∨ c ∈ cs ∨ c = ' '
  | [], run, h => by
    rcases mem_flushRun (by simpa [removeStopwordsAux] using h) with h' | h'
    · exact Or.inl h'
    · exact Or.inr (Or.inr h')
  | d :: rest, run, h => by
    unfold removeStopwordsAux at h
    split_ifs at h with hw
    · rcases mem_removeStopwordsAux rest (run ++ [d]) h with h' | h' | h'
      · rcases List.mem_append.mp h' with h'' | h''
        · exact Or.inl h''
        · simp at h''
          exact Or.inr (Or.inl (by simp [h'']))
      · exact Or.inr (Or.inl (List.mem_cons_of_mem _ h'))
      · exact Or.inr (Or.inr h')
    · rcases List.mem_append.mp h with h' | h'
      · rcases mem_flushRun h' with h'' | h''
        · exact Or.inl h''
        · exact Or.inr (Or.inr h'')
      · rcases List.mem_cons.mp h' with h'' | h''
        · exact Or.inr (Or.inl (by simp [h'']))
        · rcases mem_removeStopwordsAux rest [] h'' with h3 | h3 | h3
          · simp at h3
          · exact Or.inr (Or.inl (List.mem_cons_of_mem _ h3))
          · exact Or.inr (Or.inr h3)

theorem mem_collapseSpacesAux {c : Char} :
    ∀ (cs : List Char) (b : Bool), c ∈ collapseSpacesAux b cs →
      (c ∈ cs ∧ isPySpace c = false) ∨ c = ' '
  | [], b, h => by simp [collapseSpacesAux] at h
  | d :: rest, b, h => by
    unfold collapseSpacesAux at h
    by_cases hd : isPySpace d = true
    · rw [if_pos hd] at h
      rcases List.mem_append.mp h with h' | h'
      · have hsp : c = ' ' := by cases b <;> simp_all
        exact Or.inr hsp
      · rcases mem_collapseSpacesAux rest true h' with ⟨h1, h2⟩ | h1
        · exact Or.inl ⟨List.mem_cons_of_mem _ h1, h2⟩
        · exact Or.inr h1
    · rw [if_neg hd] at h
      rcases List.mem_cons.mp h with h' | h'
      · subst h'
        exact Or.inl ⟨List.mem_cons_self _ _, by simpa using hd⟩
      · rcases mem_collapseSpacesAux rest false h' with ⟨h1, h2⟩ | h1
        · exact Or.inl ⟨List.mem_cons_of_mem _ h1, h2⟩
        · exact Or.inr h1

theorem mem_of_mem_dropWhile' {c : Char} {p : Char → Bool} :
    ∀ {cs : List Char}, c ∈ cs.dropWhile p → c ∈ cs
  | [], h => by simp [List.dropWhile] at h
  | d :: rest, h => by
    rw [List.dropWhile_cons] at h
    split_ifs at h with hd
    · exact List.mem_cons_of_mem _ (mem_of_mem_dropWhile' h)
    · exact h

theorem mem_pyStrip {c : Char} {cs : List Char} (h : c ∈ pyStrip cs) :
    c ∈ cs := by
  unfold pyStrip at h
  rw [List.mem_reverse] at h
  have h1 := mem_of_mem_dropWhile' h
  rw [List.mem_reverse] at h1
  exact mem_of_mem_dropWhile' h1

/-- C5 (amended): `normalize_text` replaces every character that is not a
word character (letter, digit or underscore) and not whitespace by a space,
so its output consists only of word characters and single spaces — in
particular underscores survive. -/
theorem normalize_text_chars (s : String) :
    ∀ c ∈ (normalize_text s).toList, isWordChar c = true ∨ c = ' ' := by
  intro c hc
  unfold normalize_text at hc
  split_ifs at hc with hs
  · simp at hc
  · have hmem : c ∈ pyStrip (collapseSpaces (removeStopwordsAux []
        (subNonWord (s.toList.map Char.toLower)))) := hc
    have h1 := mem_pyStrip hmem
    rcases mem_collapseSpacesAux _ false h1 with ⟨h2, hns⟩ | h2
    · rcases mem_removeStopwordsAux _ [] h2 with h3 | h3 | h3
      · simp at h3
      · have h4 := mem_subNonWord h3
        rcases Bool.or_eq_true_iff.mp h4 with h5 | h5
        · exact Or.inl h5
        · rw [h5] at hns; cases hns
      · exact Or.inr h3
    · exact Or.inr h2

/-- Concrete instantiation of `normalize_text_chars`: the character `b`
occurs in the normalization of a punctuation-laden input. -/
theorem normalize_text_chars_witness :
    isWordChar 'b' = true ∨ 'b' = ' ' :=
  normalize_text_chars "The Bavaria-46, mint!" 'b' (by decide)

/-! ## Batch-fatal failures roll back (claim C8) -/

/-- C8: for either engine run, an unexpected failure while reading the
collection, or while committing, aborts the run with every buffered
`is_duplicate` / `score` mutation rolled back — the caller observes the
original store — and the failure itself is propagated unchanged (the
`except: db.rollback(); raise e` path of both engines). -/
theorem engine_runs_roll_back_on_failure (cy : ℤ)
    (store : List YachtListing) (readErr commitErr : Option String)
    (e : String)
    (h : readErr = some e ∨ (readErr = none ∧ commitErr = some e)) :
    deduplicate_listings store readErr commitErr = (Except.error e, store) ∧
    score_all_listings cy store readErr commitErr = (Except.error e, store) := by
  rcases h with h | ⟨h1, h2⟩
  · subst h
    exact ⟨rfl, rfl⟩
  · subst h1; subst h2
    exact ⟨rfl, rfl⟩

/-- Concrete instantiation of `engine_runs_roll_back_on_failure`: a
one-listing store with a failing commit keeps its original contents and
surfaces the error. -/
theorem engine_runs_roll_back_on_failure_witness :
    deduplicate_listings [blankListing 7] none (some "disk full")
      = (Except.error "disk full", [blankListing 7]) ∧
    score_all_listings 2025 [blankListing 7] none (some "disk full")
      = (Except.error "disk full", [blankListing 7]) :=
  engine_runs_roll_back_on_failure 2025 [blankListing 7] none (some "disk full")
    "disk full" (Or.inr ⟨rfl, rfl⟩)

/-! ## Single-signal denominator collapse (claim C3) -/

/-- A listing whose only populated field is `year = 0`. -/
def zeroYearA : YachtListing :=
  { blankListing 20 with year := some 0 }

/-- A second listing whose only populated field is `year = 0`. -/
def zeroYearB : YachtListing :=
  { blankListing 21 with year := some 0 }

/-- C3 counterexample: both years present (`0`) and equal, every other
signal unavailable — yet Python truthiness (`if listing1.year and
listing2.year:`) treats year `0` as missing, so no signal is collected,
the composite similarity is `0.0`, and the pair is not flagged duplicate. -/
theorem year_zero_defeats_single_signal_collapse :
    zeroYearA.year = some 0 ∧ zeroYearB.year = some 0 ∧
    simPairs zeroYearA zeroYearB = [] ∧
    calculate_similarity zeroYearA zeroYearB = 0 ∧
    are_duplicates zeroYearA zeroYearB = false := by
  have hpairs : simPairs zeroYearA zeroYearB = [] := by decide
  have hsim : calculate_similarity zeroYearA zeroYearB = 0 := by
    simp [calculate_similarity, hpairs]
  refine ⟨rfl, rfl, hpairs, hsim, ?_⟩
  have c1 : truthyS zeroYearA.hin = false := by decide
  have c2 : truthyS zeroYearA.mmsi = false := by decide
  have c3 : truthyS zeroYearA.title = false := by decide
  simp [are_duplicates, c1, c2, c3, hsim]

/-- C3 (amended): when the title, brand+model, length and price signals are
all unavailable and both years are present, **non-zero** and equal, the
composite similarity is exactly `1.0` (single-signal denominator collapse)
and the pair is flagged duplicate (`1.0 ≥ 0.85`). -/
theorem year_only_similarity_collapses_to_one (l1 l2 : YachtListing) (y : ℤ)
    (ht : ¬(truthyS l1.title = true ∧ truthyS l2.title = true))
    (hb : ¬(brandModel l1.brand l1.model ≠ "" ∧ brandModel l2.brand l2.model ≠ ""))
    (hl : ¬(truthyQ l1.length = true ∧ truthyQ l2.length = true))
    (hp : ¬(truthyQ l1.price = true ∧ truthyQ l2.price = true))
    (hy1 : l1.year = some y) (hy2 : l2.year = some y) (h0 : y ≠ 0) :
    calculate_similarity l1 l2 = 1 ∧ are_duplicates l1 l2 = true := by
  have hpairs : simPairs l1 l2 = [(1, 1/10)] := by
    simp [simPairs, ht, hb, hl, hp, hy1, hy2, truthyI, h0, getI, yearSim]
  have hsim : calculate_similarity l1 l2 = 1 := by
    simp [calculate_similarity, hpairs]
  refine ⟨hsim, ?_⟩
  rw [are_duplicates]
  split_ifs with h1 h2 h3
  · rfl
  · rfl
  · rfl
  · simp [hsim]
    norm_num

/-- Concrete instantiation of `year_only_similarity_collapses_to_one`: two
listings that share only `year = 2000`. -/
theorem year_only_similarity_witness :
    calculate_similarity { blankListing 30 with year := some 2000 }
      { blankListing 31 with year := some 2000 } = 1 ∧
    are_duplicates { blankListing 30 with year := some 2000 }
      { blankListing 31 with year := some 2000 } = true :=
  year_only_similarity_collapses_to_one _ _ 2000 (by decide) (by decide)
    (by decide) (by decide) rfl rfl (by decide)

/-! ## Brand+model signal guard (claim C6) -/

/-- Membership in a guarded singleton segment of `simPairs`. -/
theorem mem_ite_singleton {α : Type} {c : Prop} [Decidable c] {x p : α} :
    p ∈ (if c then [x] else ([] : List α)) ↔ c ∧ p = x := by
  split_ifs with h <;> simp [h]

/-- A listing with only `brand = "x"` and `year = 2000`. -/
def brandOnlyListing : YachtListing :=
  { blankListing 40 with brand := some "x", year := some 2000 }

/-- A listing with only `year = 2000`. -/
def noBrandListing : YachtListing :=
  { blankListing 41 with year := some 2000 }

/-- C6 counterexample: the first listing's `"{brand} {model}"` concatenation
is the non-empty `"x"`, the second's is empty — the brand+model signal
(weight `0.3`) is skipped (`if brand_model1 and brand_model2:` needs BOTH
non-empty), so the similarity list carries only the year signal. -/
theorem brand_signal_skipped_when_one_side_empty :
    brandModel brandOnlyListing.brand brandOnlyListing.model = "x" ∧
    simPairs brandOnlyListing noBrandListing = [(1, 1/10)] ∧
    ¬∃ p ∈ simPairs brandOnlyListing noBrandListing, p.2 = 3/10 := by
  have hbm : brandModel brandOnlyListing.brand brandOnlyListing.model = "x" := by
    decide
  have hbm2 : brandModel noBrandListing.brand noBrandListing.model = "" := by
    decide
  have c1 : truthyS brandOnlyListing.title = false := by decide
  have c2 : truthyI brandOnlyListing.year = true := by decide
  have c3 : truthyI noBrandListing.year = true := by decide
  have c4 : truthyQ brandOnlyListing.length = false := by decide
  have c5 : truthyQ brandOnlyListing.price = false := by decide
  have hy1 : getI brandOnlyListing.year = 2000 := by decide
  have hy2 : getI noBrandListing.year = 2000 := by decide
  have hpairs : simPairs brandOnlyListing noBrandListing = [(1, 1/10)] := by
    simp [simPairs, c1, c2, c3, c4, c5, hbm, hbm2, hy1, hy2, yearSim]
  refine ⟨hbm, hpairs, ?_⟩
  rw [hpairs]
  rintro ⟨p, hp, hw⟩
  simp at hp
  rw [hp] at hw
  norm_num at hw

/-- C6 (amended): the brand+model signal (the unique weight-`0.3` entry) is
part of the weighted composite **iff both** trimmed `"{brand} {model}"`
concatenations are non-empty; if either side's concatenation is empty the
signal is skipped. -/
theorem brand_signal_iff_both_nonempty (l1 l2 : YachtListing) :
    (∃ p ∈ simPairs l1 l2, p.2 = 3/10) ↔
    (brandModel l1.brand l1.model ≠ "" ∧ brandModel l2.brand l2.model ≠ "") := by
  constructor
  · rintro ⟨p, hp, hw⟩
    simp only [simPairs, List.mem_append, mem_ite_singleton] at hp
    rcases hp with ((((⟨hc, rfl⟩ | ⟨hc, rfl⟩) | ⟨hc, rfl⟩) | ⟨hc, rfl⟩) | ⟨hc, rfl⟩)
    · exact absurd hw (by norm_num)
    · exact hc
    · exact absurd hw (by norm_num)
    · exact absurd hw (by norm_num)
    · exact absurd hw (by norm_num)
  · rintro ⟨h1, h2⟩
    refine ⟨(text_similarity (normalize_text (brandModel l1.brand l1.model))
        (normalize_text (brandModel l2.brand l2.model)), 3/10), ?_, rfl⟩
    simp only [simPairs, List.mem_append, mem_ite_singleton]
    refine Or.inl (Or.inl (Or.inl (Or.inr ⟨⟨h1, h2⟩, ?_⟩)))
    trivial

/-! ## Anchor-only clustering (claim C1) -/

/-- Listing A of the non-transitive triple: only `hin = "HIN1"`. -/
def dupA : YachtListing :=
  { blankListing 1 with hin := some "HIN1" }

/-- Listing B: shares A's `hin` and carries `mmsi = "MMSI1"`. -/
def dupB : YachtListing :=
  { blankListing 2 with hin := some "HIN1", mmsi := some "MMSI1" }

/-- Listing C: shares only B's `mmsi`. -/
def dupC : YachtListing :=
  { blankListing 3 with mmsi := some "MMSI1" }

/-- Shared evaluation: A and C share no identifier and no signal, so they
are not duplicates. -/
theorem dupA_dupC_not_duplicates : are_duplicates dupA dupC = false := by
  have hsim : calculate_similarity dupA dupC = 0 := by decide
  have c1 : truthyS dupC.hin = false := by decide
  have c2 : truthyS dupA.mmsi = false := by decide
  have c3 : truthyS dupA.title = false := by decide
  simp [are_duplicates, c1, c2, c3, hsim]

/-- C1 counterexample: with `are_duplicates(A,B)`, `are_duplicates(B,C)`
true and `are_duplicates(A,C)` false, `find_duplicates([A,B,C])` yields the
cluster `{A, B}` only — C is compared against the anchor A, not against B,
so it does **not** join the cluster and its singleton group is discarded. -/
theorem find_duplicates_anchor_only_cex :
    are_duplicates dupA dupB = true ∧
    are_duplicates dupB dupC = true ∧
    are_duplicates dupA dupC = false ∧
    find_duplicates [dupA, dupB, dupC] = [[dupA, dupB]] ∧
    find_duplicates [dupA, dupB, dupC] ≠ [[dupA, dupB, dupC]] := by
  have hAB : are_duplicates dupA dupB = true := by decide
  have hBC : are_duplicates dupB dupC = true := by decide
  have hAC := dupA_dupC_not_duplicates
  have hfd : find_duplicates [dupA, dupB, dupC] = [[dupA, dupB]] := by
    have i1 : dupB.id = 2 := rfl
    have i2 : dupA.id = 1 := rfl
    have i3 : dupC.id = 3 := rfl
    simp [find_duplicates, findDupsAux, collectGroup, hAB, hBC, hAC, i1, i2, i3]
  refine ⟨hAB, hBC, hAC, hfd, ?_⟩
  rw [hfd]
  decide

/-- C1 (amended): for any pairwise-distinct triple ordered `[A, B, C]` with
A–B duplicate, B–C duplicate but A–C not duplicate, the single pass
produces exactly the cluster `{A, B}`: later candidates are compared only
against the cluster's anchor A, so C attaches only if A–C also matches. -/
theorem find_duplicates_anchor_only (A B C : YachtListing)
    (hAB : are_duplicates A B = true) (_hBC : are_duplicates B C = true)
    (hAC : are_duplicates A C = false)
    (hab : A.id ≠ B.id) (hac : A.id ≠ C.id) (hbc : B.id ≠ C.id) :
    find_duplicates [A, B, C] = [[A, B]] := by
  have hba : B.id ≠ A.id := hab.symm
  have hca : C.id ≠ A.id := hac.symm
  have hcb : C.id ≠ B.id := hbc.symm
  simp [find_duplicates, findDupsAux, collectGroup, hAB, hAC,
    hba, hca, hcb, hab, hac, hbc]

/-- Concrete instantiation of `find_duplicates_anchor_only` on the
identifier-chained triple. -/
theorem find_duplicates_anchor_only_witness :
    find_duplicates [dupA, dupB, dupC] = [[dupA, dupB]] :=
  find_duplicates_anchor_only dupA dupB dupC (by decide) (by decide)
    dupA_dupC_not_duplicates (by decide) (by decide) (by decide)

/-! ## Symmetry of `text_similarity` (claim C4)

`SequenceMatcher.ratio` is **not** symmetric: the two orders share the
denominator `len(a) + len(b)`, but the matched total depends on the
tie-breaking of `find_longest_match` (earliest in `a`, then earliest in
`b`), which selects different block decompositions for `(a, b)` and
`(b, a)` when several longest matches tie. -/

/-- C4 counterexample: `SequenceMatcher(None, "aaba", "baaa")` matches the
blocks `"aa"` (a[0:2]=b[1:3]) and `"a"` (a[3]=b[3]), total 3, ratio `3/4`;
with the arguments swapped the first block found is `"ba"` (a[0:2]=b[2:4])
after which no window remains, total 2, ratio `1/2`. -/
theorem text_similarity_not_symmetric :
    text_similarity "aaba" "baaa" ≠ text_similarity "baaa" "aaba" := by
  have h1 : matchTotal "aaba".toList "baaa".toList = 3 := by decide
  have h2 : matchTotal "baaa".toList "aaba".toList = 2 := by decide
  have hl1 : "aaba".toList.length = 4 := by decide
  have hl2 : "baaa".toList.length = 4 := by decide
  unfold text_similarity ratioQ
  rw [h1, h2, hl1, hl2]
  norm_num

theorem extFront_self (a b : List Char) (alo blo : Nat) (fuel bj bs : Nat) :
    extFront a b alo blo fuel (alo, bj, bs) = (alo, bj, bs) := by
  cases fuel <;> simp [extFront]

theorem extBack_bhi_zero (a b : List Char) (ahi fuel : Nat)
    (st : Nat × Nat × Nat) : extBack a b ahi 0 fuel st = st := by
  cases fuel with
  | zero => rfl
  | succ n =>
    rcases st with ⟨bi, bj, bs⟩
    simp [extBack]

theorem flmOuter_fold_nil_b (a : List Char) (blo bhi : Nat) :
    ∀ (l : List Nat) (acc : (Nat → Nat) × (Nat × Nat × Nat)),
      (l.foldl (flmOuter a [] blo bhi) acc).2 = acc.2 := by
  intro l
  induction l with
  | nil => intro acc; simp
  | cons i rest ih =>
    intro acc
    rw [List.foldl_cons, ih]
    simp [flmOuter, b2j, countC]

theorem flm_nil_left (b : List Char) (blo bhi : Nat) :
    find_longest_match [] b 0 0 blo bhi = (0, blo, 0) := by
  have hcore : flmCore [] b 0 0 blo bhi = (0, blo, 0) := by
    unfold flmCore
    simp
  unfold find_longest_match
  rw [hcore]
  rfl

theorem flm_nil_right (a : List Char) (ahi : Nat) :
    find_longest_match a [] 0 ahi 0 0 = (0, 0, 0) := by
  have hcore : flmCore a [] 0 ahi 0 0 = (0, 0, 0) := by
    unfold flmCore
    rw [flmOuter_fold_nil_b]
  unfold find_longest_match
  rw [hcore]
  show extBack a [] ahi 0 ahi
    (extFront a [] 0 0 ((0, 0, 0) : Nat × Nat × Nat).1 (0, 0, 0)) = (0, 0, 0)
  rw [show extFront a [] 0 0 ((0, 0, 0) : Nat × Nat × Nat).1 (0, 0, 0)
      = (0, 0, 0) from rfl]
  exact extBack_bhi_zero a [] ahi ahi (0, 0, 0)

theorem matchTotal_nil_left (b : List Char) : matchTotal [] b = 0 := by
  have h := flm_nil_left b 0 b.length
  simp [matchTotal, matchTotalAux, h]

theorem matchTotal_nil_right (a : List Char) : matchTotal a [] = 0 := by
  have h := flm_nil_right a a.length
  simp [matchTotal, matchTotalAux, h]

/-- C4 (amended): `text_similarity` is not symmetric in general (see the
tie-breaking counterexample); both orders do share the denominator
`len(a)+len(b)`, and symmetry holds in the degenerate cases — identical
arguments, or either argument empty (where the matched total is `0` on
both sides, giving `1.0` for two empty strings and `0.0` otherwise). -/
theorem text_similarity_symm_degenerate (a b : String)
    (h : a = b ∨ a = "" ∨ b = "") :
    text_similarity a b = text_similarity b a := by
  have e : "".toList = ([] : List Char) := rfl
  rcases h with rfl | rfl | rfl
  · rfl
  · unfold text_similarity ratioQ
    rw [e, matchTotal_nil_left, matchTotal_nil_right]
    simp
  · unfold text_similarity ratioQ
    rw [e, matchTotal_nil_left, matchTotal_nil_right]
    simp

/-- Concrete instantiation of `text_similarity_symm_degenerate` with an
empty second argument. -/
theorem text_similarity_symm_degenerate_witness :
    text_similarity "yacht" "" = text_similarity "" "yacht" :=
  text_similarity_symm_degenerate "yacht" "" (Or.inr (Or.inr rfl))

end Yacht
